import Mathlib

/-!
Verification of the auth-golang repository's authentication service against
its natural-language specification.

The development shallowly embeds the Go source:

* `internal/utils/masking.go` and the variant copy of `MaskEmail` found in the
  unnamed utils file — email masking over ASCII strings, modelled as functions
  on `List Char` (for ASCII input Go byte indexing and char indexing agree);
* `internal/logging/handler.go` — `extractContextAttrs`;
* `internal/logging/logger.go` — the `sync.Once`-guarded
  `InitLoggingWithOutput`, modelled as an explicit state transformer;
* the context helpers (`getOrCreateLogCtx`, `WithUserID`, ...) from the
  unnamed logging context file, modelled with an explicit heap so that pointer
  sharing and in-place mutation are observable;
* `cmd/auth-service/main.go` — `setupServices`;
* the authentication core (hasher, token issuer/validator, credential store,
  event publisher adapter, orchestrator), whose Go sources are not part of
  the provided tree; those parts are modelled from the specification and each
  such definition says so in its doc comment.
-/

/-- Model of a Go `interface\x7b\x7d` value as it is consumed by the masking and
logging helpers: either a string, or some other value together with the string
that `slog.AnyValue(v).String()` would render for it. -/
inductive GoVal where
  | vstr (s : String)
  | vother (rendered : String)
deriving DecidableEq

/-- Rendering used by `MaskEmail`: a string is used as-is, any other value is
converted via its `slog` rendering. -/
def GoVal.argString : GoVal → String
  | .vstr s => s
  | .vother r => r

/-- Model of Go `strings.Split(s, sep)` for a one-character separator, over the
character list of the string. `goSplit sep l` always returns a non-empty list
of pieces. -/
def goSplit (sep : Char) : List Char → List (List Char)
  | [] => [[]]
  | c :: rest =>
    let r := goSplit sep rest
    if c = sep then
      [] :: r
    else
      match r with
      | [] => [[c]]
      | h :: t => (c :: h) :: t

/-- Embedding of the branch structure of `MaskEmail` from
`internal/utils/masking.go` on the character list of the email string
(the caller has already ruled out the empty string): split on the at sign;
anything that does not split into exactly two parts is masked completely; an
empty local part becomes a star; a one-character local part is kept; longer
local parts keep the first character and star the rest. -/
def maskEmailChars (l : List Char) : List Char :=
  match goSplit '@' l with
  | [localPart, domain] =>
    if localPart.length = 0 then
      '*' :: '@' :: domain
    else if localPart.length = 1 then
      localPart ++ '@' :: domain
    else
      localPart.take 1 ++ List.replicate (localPart.length - 1) '*' ++ '@' :: domain
  | _ => List.replicate l.length '*'

/-- Embedding of the branch structure of the second `MaskEmail` copy (the one
in the unnamed utils source file): identical to `maskEmailChars` except that
local parts of length one or two are masked completely. -/
def maskEmailCharsV2 (l : List Char) : List Char :=
  match goSplit '@' l with
  | [localPart, domain] =>
    if localPart.length = 0 then
      '*' :: '@' :: domain
    else if localPart.length ≤ 2 then
      List.replicate localPart.length '*' ++ '@' :: domain
    else
      localPart.take 1 ++ List.replicate (localPart.length - 1) '*' ++ '@' :: domain
  | _ => List.replicate l.length '*'

/-- Embedding of `MaskEmail` from `internal/utils/masking.go`: nil input and
the empty string map to the empty string, otherwise the character-level
masking is applied. -/
def MaskEmail (email : Option GoVal) : String :=
  match email with
  | none => ""
  | some v =>
    let emailStr := v.argString
    if emailStr = "" then ""
    else String.mk (maskEmailChars emailStr.data)

/-- Embedding of the `MaskEmail` copy from the unnamed utils source file,
differing from `MaskEmail` only in its treatment of short local parts. -/
def MaskEmailV2 (email : Option GoVal) : String :=
  match email with
  | none => ""
  | some v =>
    let emailStr := v.argString
    if emailStr = "" then ""
    else String.mk (maskEmailCharsV2 emailStr.data)

/-- Test predicate for the inputs on which the two masking copies take
different branches: the rendered string splits into exactly two parts at the
at sign and the local part has length one or two. -/
def shortLocalPart (email : Option GoVal) : Bool :=
  match email with
  | none => false
  | some v =>
    match goSplit '@' v.argString.data with
    | [localPart, _] => 1 ≤ localPart.length && localPart.length ≤ 2
    | _ => false

/-- Embedding of the `LogCtx` struct of the logging package: six fields of Go
type `interface\x7b\x7d`, each possibly nil. -/
structure LogCtx where
  userID : Option GoVal := none
  requestID : Option GoVal := none
  traceID : Option GoVal := none
  operation : Option GoVal := none
  errVal : Option GoVal := none
  email : Option GoVal := none
deriving DecidableEq

/-- Empty `LogCtx`, every field nil — the value `&LogCtx\x7b\x7d` allocated by
`getOrCreateLogCtx` when the context carries none. -/
def emptyLogCtx : LogCtx := {}

/-- Heap of allocated `LogCtx` values; a Go pointer `*LogCtx` is an index into
this list. -/
abbrev LogHeap := List LogCtx

/-- Dereference a `*LogCtx`; out-of-range addresses read as the empty record
(never reached by the embedded operations). -/
def LogHeap.read (h : LogHeap) (r : Nat) : LogCtx := List.getD h r emptyLogCtx

/-- Write through a `*LogCtx`. -/
def LogHeap.write (h : LogHeap) (r : Nat) (c : LogCtx) : LogHeap := List.set h r c

/-- Model of a `context.Context` as seen by the logging package: the value
stored under the key `log_ctx`, i.e. an optional pointer into the `LogCtx`
heap (`none` covers both an absent key and a stored nil pointer, the two cases
the `ok && existing != nil` guard rejects). -/
structure GoCtx where
  logRef : Option Nat
deriving DecidableEq

/-- Embedding of `getOrCreateLogCtx` from the logging context source file: if
the context already holds a non-nil `*LogCtx`, that same pointer and the same
context are returned; otherwise a fresh empty `LogCtx` is allocated and a
child context pointing at it is returned. Result: (pointer, heap, context). -/
def getOrCreateLogCtx (h : LogHeap) (ctx : GoCtx) : Nat × LogHeap × GoCtx :=
  match ctx.logRef with
  | some r => (r, h, ctx)
  | none => (List.length h, h ++ [emptyLogCtx], ⟨some (List.length h)⟩)

/-- Embedding of `WithUserID`: obtain the (possibly shared) `LogCtx` pointer
and assign its `UserID` field in place. -/
def WithUserID (h : LogHeap) (ctx : GoCtx) (userID : GoVal) : LogHeap × GoCtx :=
  let (r, h₁, ctx₁) := getOrCreateLogCtx h ctx
  (h₁.write r { h₁.read r with userID := some userID }, ctx₁)

/-- Embedding of `WithRequestID`: same shape as `WithUserID` for the
`RequestID` field. -/
def WithRequestID (h : LogHeap) (ctx : GoCtx) (requestID : GoVal) : LogHeap × GoCtx :=
  let (r, h₁, ctx₁) := getOrCreateLogCtx h ctx
  (h₁.write r { h₁.read r with requestID := some requestID }, ctx₁)

/-- Attribute value as built by `extractContextAttrs`: `slog.Any` for the id
fields, `slog.String` for the masked email. -/
inductive AttrVal where
  | anyA (v : GoVal)
  | strA (s : String)
deriving DecidableEq

/-- Embedding of `extractContextAttrs` from `internal/logging/handler.go`:
the argument is the result of the `ctx.Value("log_ctx").(*LogCtx)` assertion
after dereferencing (nil or missing yields `none`). Attributes are appended
in source order; the `Error` field is not emitted by this handler; the email
attribute is the `MaskEmail` of the stored value. -/
def extractContextAttrs (logCtx : Option LogCtx) : List (String × AttrVal) :=
  match logCtx with
  | none => []
  | some c =>
    let a0 : List (String × AttrVal) := []
    let a1 := match c.userID with
      | some v => a0 ++ [("user_id", AttrVal.anyA v)]
      | none => a0
    let a2 := match c.requestID with
      | some v => a1 ++ [("request_id", AttrVal.anyA v)]
      | none => a1
    let a3 := match c.traceID with
      | some v => a2 ++ [("trace_id", AttrVal.anyA v)]
      | none => a2
    let a4 := match c.operation with
      | some v => a3 ++ [("operation", AttrVal.anyA v)]
      | none => a3
    match c.email with
    | some v => a4 ++ [("email", AttrVal.strA (MaskEmail (some v)))]
    | none => a4

/-- Embedding of `config.LogConfig` as consumed by the logging package. -/
structure LogConfig where
  serviceName : String
  logLevel : String
  environment : String
  version : String
deriving DecidableEq

/-- The logger value that `createLogger` builds and `slog.SetDefault`
installs; the handler chain is abstracted to the data that determines it:
the configuration and the output writer (`none` = nil, replaced by stdout,
which is writer number 0). -/
structure InstalledLogger where
  cfg : LogConfig
  output : Nat
deriving DecidableEq

/-- Embedding of `createLogger` from `internal/logging/logger.go`: an empty
`ServiceName` is rejected; a nil output is replaced by stdout. -/
def createLogger (cfg : LogConfig) (output : Option Nat) : Except String InstalledLogger :=
  if cfg.serviceName = "" then Except.error "ServiceName is required"
  else Except.ok ⟨cfg, output.getD 0⟩

/-- Process-wide logging state: whether the package-level `sync.Once` has
fired, and the logger installed as the `slog` default (`none` = the stock
default, never replaced by this package on the error path). -/
structure LoggerState where
  onceDone : Bool
  installed : Option InstalledLogger
deriving DecidableEq

/-- Embedding of `InitLoggingWithOutput` from `internal/logging/logger.go`:
the body runs under `once.Do`, so it is a no-op returning a nil error once the
`Once` has been consumed; on the first call it marks the `Once` consumed,
installs the logger on success and leaves the default untouched on error,
returning that error. -/
def InitLoggingWithOutput (cfg : LogConfig) (output : Option Nat) (s : LoggerState) :
    Option String × LoggerState :=
  if s.onceDone then (none, s)
  else
    match createLogger cfg output with
    | Except.ok l => (none, ⟨true, some l⟩)
    | Except.error e => (some e, ⟨true, s.installed⟩)

/-- Modelled from the spec: the Credential Hasher is not under src. The
underlying one-way function is modelled as a deterministic salted fold over
the plaintext with the cost factor mixed in, so a digest determines a
recomputable value from its embedded parameters. -/
def hashFn (cost salt : Nat) (plaintext : String) : Nat :=
  plaintext.data.foldl (fun acc c => acc * 31 + c.toNat + salt) (cost + 7)

/-- Modelled from the spec: a self-contained digest carrying the cost, the
salt and the hash value together (well-formed by construction, so the
malformed-digest path of `verify` has no inhabitant in the model). -/
structure Digest where
  cost : Nat
  salt : Nat
  value : Nat
deriving DecidableEq

/-- Modelled from the spec: `hash(plaintext) -> digest` encodes the
parameters and the hash of the plaintext under them. -/
def hashPassword (cost salt : Nat) (plaintext : String) : Digest :=
  ⟨cost, salt, hashFn cost salt plaintext⟩

/-- Modelled from the spec: `verify(plaintext, digest) -> bool` recomputes
with the parameters embedded in the digest and compares, returning a plain
boolean and never an error. -/
def verify (plaintext : String) (d : Digest) : Bool :=
  hashFn d.cost d.salt plaintext == d.value

/-- Modelled from the spec: token claims — subject, email, issued-at,
expires-at. -/
structure Claims where
  subject : Nat
  email : String
  issuedAt : Nat
  expiresAt : Nat
deriving DecidableEq

/-- Modelled from the spec: the keyed-hash signature over the serialized
claims, reusing the modelled one-way function with the secret as key. -/
def signClaims (secret : Nat) (c : Claims) : Nat :=
  hashFn (c.subject * 3 + c.issuedAt * 5 + c.expiresAt * 7) secret c.email

/-- Modelled from the spec: a token is the signed serialization of claims;
the three-part string encoding is abstracted to the payload plus its
signature (so the `Malformed` case of validation concerns only strings that
are not tokens, outside this model). -/
structure Token where
  payload : Claims
  sig : Nat
deriving DecidableEq

/-- Modelled from the spec: the distinguishable token error kinds. -/
inductive TokenError where
  | malformed
  | badSignature
  | expired
deriving DecidableEq

/-- Modelled from the spec: `issue(claims) -> token` with IssuedAt = now and
ExpiresAt = now + TTL, signed with the symmetric secret. -/
def issue (secret ttl : Nat) (subject : Nat) (email : String) (now : Nat) : Token :=
  let c : Claims := ⟨subject, email, now, now + ttl⟩
  ⟨c, signClaims secret c⟩

/-- Modelled from the spec: `validate(token)` re-verifies the signature
against the secret, then checks `now < ExpiresAt`; bad signature and expiry
are distinct errors. -/
def validateToken (secret : Nat) (t : Token) (now : Nat) : Except TokenError Claims :=
  if signClaims secret t.payload ≠ t.sig then Except.error TokenError.badSignature
  else if now < t.payload.expiresAt then Except.ok t.payload
  else Except.error TokenError.expired

/-- Modelled from the spec: a durable user record (created-at and updated-at
are irrelevant to the claims and omitted; deleted-at is kept as a flag since
`findByEmail` filters on it). -/
structure User where
  id : Nat
  email : String
  passwordDigest : Digest
  deleted : Bool
deriving DecidableEq

/-- Modelled from the spec: the credential store's durable state, a list of
user records with the list index generating identifiers. -/
abbrev Store := List User

/-- Modelled from the spec: `findByEmail` returns only non-deleted records. -/
def findByEmail (st : Store) (email : String) : Option User :=
  st.find? (fun u => u.email == email && !u.deleted)

/-- Modelled from the spec: the store-level conflict on duplicate email. -/
inductive StoreError where
  | conflict
deriving DecidableEq

/-- Modelled from the spec: `create(email, digest)` enforces email
uniqueness across non-deleted records atomically and otherwise appends a
fresh record with a generated identifier. -/
def createUser (st : Store) (email : String) (d : Digest) : Except StoreError (User × Store) :=
  if (findByEmail st email).isSome then Except.error StoreError.conflict
  else
    let u : User := ⟨st.length, email, d, false⟩
    Except.ok (u, st ++ [u])

/-- Modelled from the spec: the Event Publisher Adapter's connectivity
states. -/
inductive AdapterState where
  | connected
  | degraded
deriving DecidableEq

/-- Modelled from the spec: the adapter wraps a channel; `channelOk` says
whether a send on the underlying channel would succeed. -/
structure RabbitMQAdapter where
  state : AdapterState
  channelOk : Bool
deriving DecidableEq

/-- Modelled from the spec: identity event kinds. -/
inductive EventKind where
  | registered
  | loggedIn
deriving DecidableEq

/-- Modelled from the spec: the transient identity event payload. -/
structure IdentityEvent where
  kind : EventKind
  userId : Nat
  email : String
  timestamp : Nat
deriving DecidableEq

/-- Modelled from the spec: `publish(event)` never returns an error; in the
`Degraded` state it no-ops, in the `Connected` state a failed send moves the
adapter to `Degraded` and is swallowed. The returned adapter is the only
effect. -/
def publishEvent (p : RabbitMQAdapter) (_e : IdentityEvent) : RabbitMQAdapter :=
  match p.state with
  | AdapterState.degraded => p
  | AdapterState.connected =>
      if p.channelOk then p else { p with state := AdapterState.degraded }

/-- Modelled from the spec: the orchestrator holds a possibly-absent adapter
(nil after a failed construction); publishing through an absent adapter is a
no-op. -/
def publishOpt (p : Option RabbitMQAdapter) (e : IdentityEvent) : Option RabbitMQAdapter :=
  match p with
  | none => none
  | some q => some (publishEvent q e)

/-- Modelled from the spec: the error taxonomy visible in orchestrator
results. -/
inductive ErrKind where
  | validation
  | conflict
  | authentication
  | infrastructure
  | tokenKind (e : TokenError)
deriving DecidableEq

/-- Modelled from the spec: the configuration the core consumes — minimum
password length, hashing cost factor (with the salt source abstracted to a
configured value), signing secret and token TTL. -/
structure CoreConfig where
  minPasswordLen : Nat
  hashCost : Nat
  hashSalt : Nat
  jwtSecret : Nat
  tokenTTL : Nat
deriving DecidableEq

/-- Modelled from the spec: email input validation — syntactically a
plausible address and non-empty (contains an at sign with non-empty
remainder is the minimal plausibility the spec fixes). -/
def validEmailInput (email : String) : Bool :=
  email ≠ "" && email.data.contains '@'

/-- Modelled from the spec: password policy — a minimum length. -/
def validPasswordInput (cfg : CoreConfig) (password : String) : Bool :=
  cfg.minPasswordLen ≤ password.length

/-- Modelled from the spec: the structured result every orchestrator
operation returns to its caller (token carried structurally; `none` plays
the empty string). -/
structure AuthResult where
  token : Option Token
  userId : Option Nat
  email : String
  success : Bool
  errKind : Option ErrKind
  message : String
deriving DecidableEq

/-- Modelled from the spec: the single generic failure result for `Login`,
identical for an unknown email and for a wrong password. -/
def invalidCredentialsResult : AuthResult :=
  ⟨none, none, "", false, some ErrKind.authentication, "invalid credentials"⟩

/-- Modelled from the spec: `Register(email, password)` — validate inputs,
hash, create atomically, publish a `registered` event whose outcome is
ignored, and return the structured result together with the updated store
and adapter. -/
def Register (cfg : CoreConfig) (st : Store) (pub : Option RabbitMQAdapter)
    (email password : String) (now : Nat) :
    AuthResult × Store × Option RabbitMQAdapter :=
  if ¬ (validEmailInput email && validPasswordInput cfg password) then
    (⟨none, none, "", false, some ErrKind.validation, "validation error"⟩, st, pub)
  else
    let d := hashPassword cfg.hashCost cfg.hashSalt password
    match createUser st email d with
    | Except.error StoreError.conflict =>
        (⟨none, none, "", false, some ErrKind.conflict, "email already registered"⟩, st, pub)
    | Except.ok (u, st') =>
        let pub' := publishOpt pub ⟨EventKind.registered, u.id, email, now⟩
        (⟨none, some u.id, email, true, none, "registered"⟩, st', pub')

/-- Modelled from the spec: `Login(email, password)` — look up the email,
verify the digest, and on a match issue a token and publish a `logged_in`
event whose outcome is ignored; either failure cause yields the same
generic result. -/
def Login (cfg : CoreConfig) (st : Store) (pub : Option RabbitMQAdapter)
    (email password : String) (now : Nat) :
    AuthResult × Store × Option RabbitMQAdapter :=
  match findByEmail st email with
  | none => (invalidCredentialsResult, st, pub)
  | some u =>
    if verify password u.passwordDigest then
      let t := issue cfg.jwtSecret cfg.tokenTTL u.id u.email now
      let pub' := publishOpt pub ⟨EventKind.loggedIn, u.id, u.email, now⟩
      (⟨some t, some u.id, u.email, true, none, "ok"⟩, st, pub')
    else (invalidCredentialsResult, st, pub)

/-- Modelled from the spec: the result of `ValidateToken`. -/
structure ValidateResult where
  userId : Option Nat
  email : String
  valid : Bool
  errKind : Option TokenError
deriving DecidableEq

/-- Modelled from the spec: `ValidateToken(token)` is purely
cryptographic/temporal; no store lookup. -/
def ValidateTokenOp (cfg : CoreConfig) (t : Token) (now : Nat) : ValidateResult :=
  match validateToken cfg.jwtSecret t now with
  | Except.error e => ⟨none, "", false, some e⟩
  | Except.ok c => ⟨some c.subject, c.email, true, none⟩

/-- Embedding of `config.DBConfig` reduced to what decides the behaviour of
`NewGormAdapter` in the model: whether the database connection succeeds. -/
structure DBConfig where
  available : Bool
deriving DecidableEq

/-- Embedding of `config.RabbitMQConfig` reduced to what decides the
behaviour of `NewRabbitMQAdapter` in the model: whether the channel can be
established. -/
structure RabbitMQConfig where
  available : Bool
deriving DecidableEq

/-- Embedding of `config.Config` as consumed by `setupServices`. -/
structure Config where
  database : DBConfig
  rabbitMQ : RabbitMQConfig
  core : CoreConfig
deriving DecidableEq

/-- Modelled from the spec: `NewRabbitMQAdapter` attempts to establish the
channel once and reports an error on failure. -/
def NewRabbitMQAdapter (c : RabbitMQConfig) : Except String RabbitMQAdapter :=
  if c.available then Except.ok ⟨AdapterState.connected, true⟩
  else Except.error "failed to connect to RabbitMQ"

/-- Modelled from the spec: the storage handle behind the credential store. -/
structure GormAdapter where
  db : DBConfig
deriving DecidableEq

/-- Modelled from the spec: `NewGormAdapter` opens the database connection
and reports an error on failure. -/
def NewGormAdapter (c : DBConfig) : Except String GormAdapter :=
  if c.available then Except.ok ⟨c⟩
  else Except.error "failed to connect to database"

/-- Modelled from the spec: the user repository over the storage handle. -/
structure UserRepository where
  adapter : GormAdapter
deriving DecidableEq

/-- Modelled from the spec: `NewUserRepository` wraps the handle. -/
def NewUserRepository (g : GormAdapter) : UserRepository := ⟨g⟩

/-- Modelled from the spec: the orchestrator, constructed with its store and
its possibly-absent event-publishing capability injected; it holds no other
channel to shared logging state. -/
structure AuthService where
  repo : UserRepository
  publisher : Option RabbitMQAdapter
  cfg : CoreConfig
deriving DecidableEq

/-- Modelled from the spec: `NewAuthService` stores exactly the injected
collaborators. -/
def NewAuthService (repo : UserRepository) (pub : Option RabbitMQAdapter)
    (cfg : CoreConfig) : AuthService :=
  ⟨repo, pub, cfg⟩

/-- Modelled from the spec: the gRPC-facing server wrapping the service. -/
structure AuthServer where
  service : AuthService
deriving DecidableEq

/-- Modelled from the spec: `NewAuthServer` wraps the service. -/
def NewAuthServer (svc : AuthService) : AuthServer := ⟨svc⟩

/-- Embedding of `setupServices` from `cmd/auth-service/main.go`: a failed
`NewRabbitMQAdapter` is logged and replaced by a nil adapter and setup
continues; a failed `NewGormAdapter` aborts setup with its error; otherwise
the repository, service and server are built and returned with a nil
error. -/
def setupServices (cfg : Config) : Except String (AuthService × AuthServer) :=
  let rabbitmqService : Option RabbitMQAdapter :=
    match NewRabbitMQAdapter cfg.rabbitMQ with
    | Except.ok a => some a
    | Except.error _ => none
  match NewGormAdapter cfg.database with
  | Except.error e => Except.error e
  | Except.ok gormAdapter =>
    let userRepo := NewUserRepository gormAdapter
    let authService := NewAuthService userRepo rabbitmqService cfg.core
    let authServer := NewAuthServer authService
    Except.ok (authService, authServer)

/-- Modelled from the spec: the process-wide mutable surroundings of the
core — the durable store and the global default-logger slot that
`slog.SetDefault` would mutate. -/
structure World where
  store : Store
  slogDefault : LoggerState
deriving DecidableEq

/-- Modelled from the spec: the core `Register` operation run against the
world through the service's injected capability. -/
def AuthService.registerOp (svc : AuthService) (w : World) (email password : String)
    (now : Nat) : AuthResult × AuthService × World :=
  let (r, st', pub') := Register svc.cfg w.store svc.publisher email password now
  (r, { svc with publisher := pub' }, { w with store := st' })

/-- Modelled from the spec: the core `Login` operation run against the world
through the service's injected capability. -/
def AuthService.loginOp (svc : AuthService) (w : World) (email password : String)
    (now : Nat) : AuthResult × AuthService × World :=
  let (r, st', pub') := Login svc.cfg w.store svc.publisher email password now
  (r, { svc with publisher := pub' }, { w with store := st' })

/-- Modelled from the spec: the core `ValidateToken` operation run against
the world; it touches neither the store nor any logger state. -/
def AuthService.validateOp (svc : AuthService) (w : World) (t : Token) (now : Nat) :
    ValidateResult × AuthService × World :=
  (ValidateTokenOp svc.cfg t now, svc, w)

/-- C5: for every password p (and any hashing parameters), verifying p
against the digest produced by hashing p succeeds. -/
theorem verify_hash_roundtrip (cost salt : Nat) (p : String) :
    verify p (hashPassword cost salt p) = true := by
  simp [verify, hashPassword]

/-- C6: validating an issued token while the current time is earlier than
its expires-at succeeds and returns claims with the issued subject and
email. -/
theorem validate_issue_roundtrip (secret ttl subject : Nat) (email : String)
    (now now' : Nat) (h : now' < now + ttl) :
    validateToken secret (issue secret ttl subject email now) now'
      = Except.ok ⟨subject, email, now, now + ttl⟩ := by
  simp [validateToken, issue, h]

/-- Witness for C6 at concrete inputs. -/
theorem validate_issue_roundtrip_witness :
    (11 : Nat) < 10 + 2 ∧
      validateToken 1 (issue 1 2 3 "a@b" 10) 11 = Except.ok ⟨3, "a@b", 10, 10 + 2⟩ :=
  ⟨by decide, validate_issue_roundtrip 1 2 3 "a@b" 10 11 (by decide)⟩

/-- C10: once the package-level `sync.Once` has fired, every further call to
`InitLoggingWithOutput` — any configuration, any output — returns a nil
error and leaves the state untouched; moreover every call consumes the
`Once`, and a call that returns an error installs nothing, so after a failed
first call no later call ever installs a logger. -/
theorem initLoggingWithOutput_once (cfg : LogConfig) (output : Option Nat)
    (s : LoggerState) :
    (s.onceDone = true → InitLoggingWithOutput cfg output s = (none, s)) ∧
    (InitLoggingWithOutput cfg output s).2.onceDone = true ∧
    (∀ e, (InitLoggingWithOutput cfg output s).1 = some e →
      (InitLoggingWithOutput cfg output s).2.installed = s.installed) := by
  refine ⟨?_, ?_, ?_⟩
  · intro h
    simp [InitLoggingWithOutput, h]
  · by_cases h : s.onceDone
    · simp [InitLoggingWithOutput, h]
    · simp only [InitLoggingWithOutput, h, if_false, Bool.false_eq_true]
      cases hc : createLogger cfg output <;> simp
  · intro e he
    by_cases h : s.onceDone
    · simp [InitLoggingWithOutput, h] at he
    · simp only [InitLoggingWithOutput, h, if_false, Bool.false_eq_true] at he ⊢
      cases hc : createLogger cfg output <;> simp [hc] at he ⊢

/-- Witness for C10 at a concrete already-initialized state. -/
theorem initLoggingWithOutput_once_witness :
    (⟨true, none⟩ : LoggerState).onceDone = true ∧
      InitLoggingWithOutput ⟨"other", "DEBUG", "prod", "2.0"⟩ (some 5) ⟨true, none⟩
        = (none, ⟨true, none⟩) :=
  ⟨rfl, (initLoggingWithOutput_once ⟨"other", "DEBUG", "prod", "2.0"⟩ (some 5)
      ⟨true, none⟩).1 rfl⟩

/-- C2, evaluation at the failing input: a context already carrying a
`LogCtx` is passed to `WithUserID`; the call hands back the very same
context (same pointer), and the `LogCtx` reachable from the original
context has been mutated in place — the original branch observes the
write, contradicting the copy-on-write snapshot discipline the spec and
the package's own tests require. -/
theorem withUserID_mutates_shared_logctx :
    (WithUserID [emptyLogCtx] ⟨some 0⟩ (GoVal.vstr "12345")).2 = ⟨some 0⟩ ∧
    LogHeap.read (WithUserID [emptyLogCtx] ⟨some 0⟩ (GoVal.vstr "12345")).1 0 ≠
      LogHeap.read [emptyLogCtx] 0 ∧
    LogHeap.read (WithUserID [emptyLogCtx] ⟨some 0⟩ (GoVal.vstr "12345")).1 0 =
      { emptyLogCtx with userID := some (GoVal.vstr "12345") } := by
  refine ⟨rfl, ?_, rfl⟩
  decide

/-- C1: whenever database initialization succeeds, `setupServices` returns a
service and a server with a nil error even if `NewRabbitMQAdapter` failed,
and in that case the service carries an absent (nil) publisher. -/
theorem setupServices_continues_without_rabbitmq (cfg : Config)
    (g : GormAdapter) (e : String)
    (hdb : NewGormAdapter cfg.database = Except.ok g)
    (hrb : NewRabbitMQAdapter cfg.rabbitMQ = Except.error e) :
    ∃ svc srv, setupServices cfg = Except.ok (svc, srv) ∧ svc.publisher = none := by
  refine ⟨NewAuthService (NewUserRepository g) none cfg.core,
    NewAuthServer (NewAuthService (NewUserRepository g) none cfg.core), ?_, rfl⟩
  simp only [setupServices, hdb, hrb]

/-- Witness for C1 at a concrete configuration with a reachable database and
an unreachable message broker. -/
theorem setupServices_continues_without_rabbitmq_witness :
    NewGormAdapter ⟨true⟩ = Except.ok ⟨⟨true⟩⟩ ∧
    NewRabbitMQAdapter ⟨false⟩ = Except.error "failed to connect to RabbitMQ" ∧
    ∃ svc srv,
      setupServices ⟨⟨true⟩, ⟨false⟩, ⟨8, 10, 3, 42, 3600⟩⟩ = Except.ok (svc, srv) ∧
        svc.publisher = none :=
  ⟨rfl, rfl,
    setupServices_continues_without_rabbitmq ⟨⟨true⟩, ⟨false⟩, ⟨8, 10, 3, 42, 3600⟩⟩
      ⟨⟨true⟩⟩ "failed to connect to RabbitMQ" rfl rfl⟩

/-- C7: the orchestrator receives its event-emission capability by explicit
injection at construction (`NewAuthService` stores exactly the injected
publisher), and no core operation touches the process-wide default-logger
slot of the surrounding world. -/
theorem core_injected_capability_frame :
    (∀ repo pub cfg, (NewAuthService repo pub cfg).publisher = pub) ∧
    (∀ (svc : AuthService) (w : World) (email password : String) (now : Nat),
      ((svc.registerOp w email password now).2.2).slogDefault = w.slogDefault) ∧
    (∀ (svc : AuthService) (w : World) (email password : String) (now : Nat),
      ((svc.loginOp w email password now).2.2).slogDefault = w.slogDefault) ∧
    (∀ (svc : AuthService) (w : World) (t : Token) (now : Nat),
      ((svc.validateOp w t now).2.2).slogDefault = w.slogDefault) :=
  ⟨fun _ _ _ => rfl, fun _ _ _ _ _ => rfl, fun _ _ _ _ _ => rfl, fun _ _ _ _ => rfl⟩

/-- C3: with fixed inputs and fixed store state, `Register` and `Login`
return the same result to the caller — and leave the same store — whatever
the state of the event publisher adapter (connected, degraded, or absent);
the publish outcome never reaches the result. -/
theorem register_login_publisher_independent (cfg : CoreConfig) (st : Store)
    (email password : String) (now : Nat) (p q : Option RabbitMQAdapter) :
    (Register cfg st p email password now).1 = (Register cfg st q email password now).1 ∧
    (Register cfg st p email password now).2.1 = (Register cfg st q email password now).2.1 ∧
    (Login cfg st p email password now).1 = (Login cfg st q email password now).1 ∧
    (Login cfg st p email password now).2.1 = (Login cfg st q email password now).2.1 := by
  have hreg : ∀ pb : Option RabbitMQAdapter,
      (Register cfg st pb email password now).1 = (Register cfg st q email password now).1 ∧
      (Register cfg st pb email password now).2.1 = (Register cfg st q email password now).2.1 := by
    intro pb
    simp only [Register]
    by_cases hv : (validEmailInput email && validPasswordInput cfg password : Bool)
    · simp only [hv, not_true_eq_false, if_false]
      cases hc : createUser st email (hashPassword cfg.hashCost cfg.hashSalt password) with
      | error e => cases e; simp
      | ok pr => simp
    · simp [hv]
  have hlog : ∀ pb : Option RabbitMQAdapter,
      (Login cfg st pb email password now).1 = (Login cfg st q email password now).1 ∧
      (Login cfg st pb email password now).2.1 = (Login cfg st q email password now).2.1 := by
    intro pb
    simp only [Login]
    cases hf : findByEmail st email with
    | none => simp
    | some u =>
      by_cases hvv : verify password u.passwordDigest <;> simp [hvv]
  exact ⟨(hreg p).1, (hreg p).2, (hlog p).1, (hlog p).2⟩

/-- C4: a `Login` whose email is absent from the store and a `Login` whose
email is present but whose password fails verification return the identical
generic invalid-credentials result, so the caller cannot tell the two
failure causes apart. -/
theorem login_failures_indistinguishable (cfg : CoreConfig) (st : Store)
    (pub : Option RabbitMQAdapter) (em1 pw1 em2 pw2 : String) (u : User)
    (now1 now2 : Nat)
    (h1 : findByEmail st em1 = none)
    (h2 : findByEmail st em2 = some u)
    (h3 : verify pw2 u.passwordDigest = false) :
    (Login cfg st pub em1 pw1 now1).1 = invalidCredentialsResult ∧
    (Login cfg st pub em2 pw2 now2).1 = invalidCredentialsResult ∧
    (Login cfg st pub em1 pw1 now1).1 = (Login cfg st pub em2 pw2 now2).1 := by
  simp [Login, h1, h2, h3]

/-- Witness for C4: a concrete one-user store, an unknown email, and the
stored email with a wrong password. -/
theorem login_failures_indistinguishable_witness :
    findByEmail [⟨0, "bob@x.com", hashPassword 4 7 "correct-pw", false⟩] "alice@x.com" = none ∧
    findByEmail [⟨0, "bob@x.com", hashPassword 4 7 "correct-pw", false⟩] "bob@x.com"
      = some ⟨0, "bob@x.com", hashPassword 4 7 "correct-pw", false⟩ ∧
    verify "wrong" (hashPassword 4 7 "correct-pw") = false ∧
    (Login ⟨8, 4, 7, 42, 3600⟩ [⟨0, "bob@x.com", hashPassword 4 7 "correct-pw", false⟩]
        none "alice@x.com" "anything" 1 ).1
      = (Login ⟨8, 4, 7, 42, 3600⟩ [⟨0, "bob@x.com", hashPassword 4 7 "correct-pw", false⟩]
        none "bob@x.com" "wrong" 2 ).1 :=
  ⟨by decide, by decide, by decide,
    (login_failures_indistinguishable ⟨8, 4, 7, 42, 3600⟩
      [⟨0, "bob@x.com", hashPassword 4 7 "correct-pw", false⟩] none
      "alice@x.com" "anything" "bob@x.com" "wrong"
      ⟨0, "bob@x.com", hashPassword 4 7 "correct-pw", false⟩ 1 2
      (by decide) (by decide) (by decide)).2.2⟩

/-- C8: whenever the `LogCtx` in the context carries a non-nil email value,
the only email attribute `extractContextAttrs` emits is the `MaskEmail` of
that value — the raw value never appears as the email attribute. -/
theorem email_attr_masked (c : LogCtx) (v : GoVal) (h : c.email = some v) :
    (extractContextAttrs (some c)).filter (fun a => a.1 == "email")
      = [("email", AttrVal.strA (MaskEmail (some v)))] := by
  obtain ⟨u, r, t, o, er, em⟩ := c
  simp only at h
  subst h
  cases u <;> cases r <;> cases t <;> cases o <;>
    simp [extractContextAttrs, List.filter]

/-- Witness for C8 at a concrete context value. -/
theorem email_attr_masked_witness :
    ({ email := some (GoVal.vstr "user@example.com") } : LogCtx).email
      = some (GoVal.vstr "user@example.com") ∧
    (extractContextAttrs (some { email := some (GoVal.vstr "user@example.com") })).filter
        (fun a => a.1 == "email")
      = [("email", AttrVal.strA (MaskEmail (some (GoVal.vstr "user@example.com"))))] :=
  ⟨rfl, email_attr_masked { email := some (GoVal.vstr "user@example.com") }
    (GoVal.vstr "user@example.com") rfl⟩

/-- C9, counterexample: the two `MaskEmail` copies disagree on the input
`a@test.com` — the utils copy keeps a one-character local part while the
variant copy masks it. -/
theorem maskEmail_copies_differ :
    MaskEmail (some (GoVal.vstr "a@test.com"))
      ≠ MaskEmailV2 (some (GoVal.vstr "a@test.com")) := by
  decide

/-- Helper for C9: on a string that splits into a local part and a domain,
the two masking kernels agree whenever the local part is empty or has at
least three characters. -/
theorem maskChars_agree (lp dom l : List Char)
    (hsp : goSplit '@' l = [lp, dom])
    (hlen : lp.length = 0 ∨ 3 ≤ lp.length) :
    maskEmailChars l = maskEmailCharsV2 l := by
  simp only [maskEmailChars, maskEmailCharsV2, hsp]
  rcases hlen with h0 | h3
  · simp [h0]
  · have e1 : ¬ lp.length = 0 := by omega
    have e2 : ¬ lp.length = 1 := by omega
    have e3 : ¬ lp.length ≤ 2 := by omega
    simp [e1, e2, e3]

/-- C9, amended: the two `MaskEmail` copies agree on every input except
those whose rendered string splits into exactly two parts around the at
sign with a local part of length one or two; on those (and only on those)
branches the copies were written differently. -/
theorem maskEmail_copies_agree_outside_short_local (em : Option GoVal)
    (h : shortLocalPart em = false) :
    MaskEmail em = MaskEmailV2 em := by
  cases em with
  | none => rfl
  | some v =>
    show (if v.argString = "" then "" else String.mk (maskEmailChars v.argString.data))
        = (if v.argString = "" then "" else String.mk (maskEmailCharsV2 v.argString.data))
    by_cases hs : v.argString = ""
    · simp [hs]
    · simp only [if_neg hs]
      congr 1
      simp only [shortLocalPart] at h
      cases hsp : goSplit '@' v.argString.data with
      | nil => simp [maskEmailChars, maskEmailCharsV2, hsp]
      | cons lp tail =>
        cases tail with
        | nil => simp [maskEmailChars, maskEmailCharsV2, hsp]
        | cons dom tail2 =>
          cases tail2 with
          | nil =>
            simp only [hsp] at h
            refine maskChars_agree lp dom _ hsp ?_
            simp only [Bool.and_eq_false_iff, decide_eq_false_iff_not] at h
            omega
          | cons x rest => simp [maskEmailChars, maskEmailCharsV2, hsp]

/-- Witness for the amended C9 statement at a concrete long-local-part
email. -/
theorem maskEmail_copies_agree_outside_short_local_witness :
    shortLocalPart (some (GoVal.vstr "user@example.com")) = false ∧
    MaskEmail (some (GoVal.vstr "user@example.com"))
      = MaskEmailV2 (some (GoVal.vstr "user@example.com")) :=
  ⟨by decide, maskEmail_copies_agree_outside_short_local
    (some (GoVal.vstr "user@example.com")) (by decide)⟩
